import Mathlib

/-!
Verification of the Auto-Agent-X request-orchestration core against its
specification.  The Python sources under `backend/` are shallowly embedded:
pure post-processing becomes Lean functions, calls to external collaborators
(the language-model backend, the document sources) become explicit oracle
arguments of type `Except`/`Option`/function, and the async generators that
produce server-sent events become functions returning a `List Event`.
-/

namespace AutoAgentX

/-- Intent type enumeration, from `backend/services/intent_service.py`
(`class IntentType`). -/
inductive IntentType where
  | code_search
  | code_explain
  | code_review
  | bug_fix
  | refactor
  | general_qa
  | casual_chat
  | clarification
deriving DecidableEq, Repr

/-- Conversion of a raw classifier intent string into the closed enum,
embedding the `intent_str in IntentType._value2member_map_` lookup of
`IntentService.classify`: `none` when the string is not a member value. -/
def intentOfString (s : String) : Option IntentType :=
  if s = "code_search" then some .code_search
  else if s = "code_explain" then some .code_explain
  else if s = "code_review" then some .code_review
  else if s = "bug_fix" then some .bug_fix
  else if s = "refactor" then some .refactor
  else if s = "general_qa" then some .general_qa
  else if s = "casual_chat" then some .casual_chat
  else if s = "clarification" then some .clarification
  else none

/-- Intent recognition result, from `intent_service.py` (`class IntentResult`).
Python floats are modelled as rationals. -/
structure IntentResult where
  intent : IntentType
  confidence : Rat
  entities : List (String × String)
  suggested_prompt_template : String
  requires_clarification : Bool
deriving DecidableEq, Repr

/-- The parsed JSON dictionary produced by the classifier chain
(`await self.chain.ainvoke(...)` in `IntentService.classify`).  Each field is
an `Option` because `classify` reads every key with `result.get(key, default)`
and any key may be absent from the model's JSON output. -/
structure ClassifierOutput where
  intent : Option String
  confidence : Option Rat
  entities : Option (List (String × String))
  suggested_prompt_template : Option String
  requires_clarification : Option Bool
deriving DecidableEq, Repr

/-- The allow-list `self.allowed_template_ids` built in
`IntentService.__init__`. -/
def allowed_template_ids : List String :=
  ["default_v1", "code_search_v1", "code_explain_v1", "code_review_v1",
   "bug_fix_v1", "refactor_v1", "general_qa_v1", "casual_chat_v1"]

/-- The fixed intent-to-template lookup of `IntentService._match_template`:
`template_map.get(intent, "default_v1")`. -/
def match_template (intent : String) : String :=
  if intent = "code_search" then "code_search_v1"
  else if intent = "code_explain" then "code_explain_v1"
  else if intent = "code_review" then "code_review_v1"
  else if intent = "bug_fix" then "bug_fix_v1"
  else if intent = "refactor" then "refactor_v1"
  else if intent = "general_qa" then "general_qa_v1"
  else if intent = "casual_chat" then "casual_chat_v1"
  else "default_v1"

/-- The safe default `IntentResult` returned by the `except` branch of
`IntentService.classify`. -/
def fallbackIntentResult : IntentResult :=
  { intent := .general_qa
    confidence := 1/2
    entities := []
    suggested_prompt_template := "general_qa_v1"
    requires_clarification := false }

/-- `IntentService.classify`.  The behaviour of the backend chain invocation is
passed in as `backend : Except String ClassifierOutput`: `Except.error`
models any backend or output-parsing failure (the `except Exception` branch),
`Except.ok` the parsed JSON dictionary.  The post-processing mirrors the
Python line by line: intent string normalised through the enum with
`general_qa` fallback; a missing, falsy, placeholder (`"template_id"`) or
disallowed template id recomputed by `_match_template` from the raw intent
string; every other field read with its `get` default. -/
def classify (backend : Except String ClassifierOutput) : IntentResult :=
  match backend with
  | .error _ => fallbackIntentResult
  | .ok result =>
    let intent_str := result.intent.getD "general_qa"
    let intent_enum := (intentOfString intent_str).getD .general_qa
    let template_id :=
      match result.suggested_prompt_template with
      | none => match_template intent_str
      | some t =>
        if t = "" ∨ t = "template_id" ∨ t ∉ allowed_template_ids then
          match_template intent_str
        else t
    { intent := intent_enum
      confidence := result.confidence.getD 0
      entities := result.entities.getD []
      suggested_prompt_template := template_id
      requires_clarification := result.requires_clarification.getD false }

/-- A concrete classifier output reporting confidence 0.69 and
`requires_clarification = false`, used to test the clarification-forcing
claim. -/
def lowConfidenceOutput : ClassifierOutput :=
  { intent := some "general_qa"
    confidence := some (69/100)
    entities := some []
    suggested_prompt_template := some "general_qa_v1"
    requires_clarification := some false }

/-- A concrete classifier output carrying the disallowed suggested template
id `"nonexistent_v1"` together with a `bug_fix` classification, the spec's
own worked example. -/
def nonexistentTemplateOutput : ClassifierOutput :=
  { intent := some "bug_fix"
    confidence := some (95/100)
    entities := some []
    suggested_prompt_template := some "nonexistent_v1"
    requires_clarification := some false }

/-- A retrieved document, from `langchain_core.documents.Document` as the
repository uses it: `page_content` plus the two metadata keys the code reads,
`metadata.get("source")` and `metadata.get("score")` (each possibly absent). -/
structure Document where
  page_content : String
  source : Option String
  score : Option Rat
deriving DecidableEq, Repr

/-- A document source, the external collaborator behind
`retriever.ainvoke(query, ...)` in `EnsembleRetriever._aget_relevant_documents`:
given a query it either returns a ranked document list or fails. -/
def Retriever : Type := String → Except String (List Document)

/-- Whether a settled source call succeeded, embedding the
`isinstance(res, list)` test applied to each element of the
`asyncio.gather(..., return_exceptions=True)` result. -/
def succeeded (r : Except String (List Document)) : Bool :=
  match r with
  | .ok _ => true
  | .error _ => false

/-- The documents a settled source call contributes: its list on success,
nothing on failure (the failed branch of the `isinstance(res, list)` check
skips the result). -/
def okDocs (r : Except String (List Document)) : List Document :=
  match r with
  | .ok ds => ds
  | .error _ => []

/-- The loop of `EnsembleRetriever._rerank` with its `seen` set of contents
made explicit: keep a document iff its `page_content` has not been seen. -/
def rerankAux (seen : List String) : List Document → List Document
  | [] => []
  | d :: ds =>
    if d.page_content ∈ seen then rerankAux seen ds
    else d :: rerankAux (d.page_content :: seen) ds

/-- `EnsembleRetriever._rerank`: deduplication by exact `page_content`
equality, first occurrence kept. -/
def rerank (docs : List Document) : List Document :=
  rerankAux [] docs

/-- `EnsembleRetriever` from `backend/services/retrieval_service.py`:
a list of document sources with associated weights. -/
structure EnsembleRetriever where
  retrievers : List Retriever
  weights : List Rat

/-- `EnsembleRetriever._aget_relevant_documents`: every source is invoked (the
`asyncio.gather` keeps results in task order, i.e. registration order), the
successful results are flattened in that order, and the flattened list is
passed to `_rerank`.  The weights are never read. -/
def EnsembleRetriever.aget_relevant_documents
    (e : EnsembleRetriever) (query : String) : List Document :=
  rerank ((e.retrievers.map (fun r => okDocs (r query))).flatten)

/-- A document source that always fails, used as concrete test input. -/
def srcFailing : Retriever := fun _ => .error "connection refused"

/-- A document source returning one fixed document, used as concrete test
input. -/
def srcAlpha : Retriever :=
  fun _ => .ok [{ page_content := "alpha", source := some "s1",
                  score := some (9/10) }]

/-- Python string slicing `s[:n]`: the first `n` characters (code points) of
`s`. -/
def pySlice (s : String) (n : Nat) : String :=
  String.mk (s.data.take n)

/-- One citation entry, as built by `RAGService.chat`, `RAGService.chat_stream`
and `RAGPipeline._extract_citations`: the document's source, a content preview
and a relevance score. -/
structure Citation where
  source : Option String
  content : String
  relevance : Rat
deriving DecidableEq, Repr

/-- The citation derived from one retrieved document, embedding
`{"source": d.metadata.get("source"), "content": d.page_content[:100] + "...",
"relevance": d.metadata.get("score", 0.0)}`. -/
def mkCitation (d : Document) : Citation :=
  { source := d.source
    content := pySlice d.page_content 100 ++ "..."
    relevance := d.score.getD 0 }

/-- The keys of the `self.prompt_templates` mapping built in
`RAGService.__init__`: it defines exactly five templates. -/
def prompt_template_keys : List String :=
  ["default_v1", "code_search_v1", "code_explain_v1", "general_qa_v1",
   "casual_chat_v1"]

/-- Template selection in `RAGService.chat` and `RAGService.chat_stream`:
`self.prompt_templates.get(template_id, self.prompt_templates["default_v1"])`.
The selected template object is determined by its key, so the selection is
modelled as returning the key that is looked up. -/
def selectTemplate (template_id : String) : String :=
  if template_id ∈ prompt_template_keys then template_id else "default_v1"

/-- The dictionary returned by `RAGService.chat`. -/
structure ChatResponse where
  session_id : String
  response : String
  intent : IntentResult
  citations : List Citation
  template_used : String
deriving DecidableEq, Repr

/-- The external collaborators of one `RAGService` request, as oracles: the
classifier chain's outcome, the retrieval service's outcome, and the
generation chain's behaviour as a function of the selected template key —
its complete-mode result (`chain.ainvoke`), the chunks its stream yields
(`chain.astream`), and whether the stream raises after those chunks. -/
structure Collaborators where
  classifierResult : Except String ClassifierOutput
  retrievalOutcome : Except String (List Document)
  generateResponse : String → Except String String
  generateTokens : String → List String
  generateStreamError : String → Option String

/-- The document list both `chat` and `chat_stream` end up holding:
empty for `casual_chat` (retrieval skipped), otherwise the retrieval
outcome's documents with a failure swallowed into the empty list
(`except ...: # Proceed with empty docs`). -/
def retrievedDocs (intent_result : IntentResult)
    (outcome : Except String (List Document)) : List Document :=
  if intent_result.intent = IntentType.casual_chat then []
  else okDocs outcome

/-- `RAGService.chat`: classify, retrieve unless `casual_chat` (failures
swallowed), select the prompt template via the five-key mapping, invoke the
generation chain (whose failure propagates to the caller — there is no
`try` around `chain.ainvoke`), and build the response dictionary with one
citation per retrieved document and the raw suggested template id recorded
in the metadata. -/
def chat (query session_id : String) (o : Collaborators) :
    Except String ChatResponse :=
  let intent_result := classify o.classifierResult
  let docs := retrievedDocs intent_result o.retrievalOutcome
  let template_id := intent_result.suggested_prompt_template
  match o.generateResponse (selectTemplate template_id) with
  | .error e => .error e
  | .ok text =>
    .ok { session_id := session_id
          response := text
          intent := intent_result
          citations := docs.map mkCitation
          template_used := template_id }

/-- One server-sent event, the discriminated union behind
`_format_sse(event, data)`: each `yield self._format_sse(kind, payload)` of
`RAGService.chat_stream` is modelled as the corresponding constructor
applied to the payload fields the code puts into the JSON body. -/
inductive Event where
  | status (stage : String)
  | clarification (message : String) (suggestions : List String)
  | retrieval (found : Nat) (sources : List (Option String))
  | token (content : String)
  | error (message : String)
  | done (session_id : String) (citations : List Citation)
deriving DecidableEq, Repr

/-- `RAGService.chat_stream` as the finite list of events the async generator
yields, in order: a `status(intent_classify)`, a `clarification` event when
the intent requires clarification (the generator then *continues* — the
early `return` was removed in the source), a `status(retrieving)`, an
`error` event when retrieval raised (after which the generator again
continues with empty documents), the `retrieval` summary, a
`status(generating)`, one `token` event per chunk of the generation stream,
and finally the `done` event — unless the generation stream raises, in which
case the generator aborts after the last chunk's event and no `done` is
emitted. -/
def chat_stream (query session_id : String) (o : Collaborators) :
    List Event :=
  let intent_result := classify o.classifierResult
  let docs := retrievedDocs intent_result o.retrievalOutcome
  let retrievalFailure : List Event :=
    if intent_result.intent = IntentType.casual_chat then []
    else
      match o.retrievalOutcome with
      | .ok _ => []
      | .error e => [Event.error ("Retrieval failed: " ++ e)]
  let selected := selectTemplate intent_result.suggested_prompt_template
  Event.status "intent_classify" ::
    ((if intent_result.requires_clarification then
        [Event.clarification "Clarification needed" []]
      else []) ++
      (Event.status "retrieving" ::
        (retrievalFailure ++
          (Event.retrieval docs.length (docs.map (fun d => d.source)) ::
            Event.status "generating" ::
            ((o.generateTokens selected).map Event.token ++
              (match o.generateStreamError selected with
               | some _ => []
               | none => [Event.done session_id (docs.map mkCitation)]))))))

/-- Whether an event is a terminal kind (`done` or `error`) in the sense of
the streaming contract. -/
def isTerminalEvent (e : Event) : Bool :=
  match e with
  | .done _ _ => true
  | .error _ => true
  | _ => false

/-- Whether an event is a `done` event. -/
def isDoneEvent (e : Event) : Bool :=
  match e with
  | .done _ _ => true
  | _ => false

/-- The claimed termination discipline: once the first `done` *or* `error`
event occurs, no further event of any kind follows. -/
def noEventAfterFirstTerminal : List Event → Bool
  | [] => true
  | e :: es =>
    if isTerminalEvent e then es.isEmpty else noEventAfterFirstTerminal es

/-- The discipline the code actually obeys: once the first `done` event
occurs, no further event follows. -/
def noEventAfterFirstDone : List Event → Bool
  | [] => true
  | e :: es =>
    if isDoneEvent e then es.isEmpty else noEventAfterFirstDone es

/-- No `token` event occurs before a `status` event whose stage is
`generating`: scan the sequence; reaching such a status first is success,
hitting a token first is failure. -/
def noTokenBeforeGenerating : List Event → Bool
  | [] => true
  | .status s :: es =>
    if s = "generating" then true else noTokenBeforeGenerating es
  | .token _ :: _ => false
  | _ :: es => noTokenBeforeGenerating es

/-- Collaborators for a non-clarification query whose retrieval call fails:
the classifier succeeds with high confidence, retrieval raises, generation
streams one chunk and finishes. -/
def failingRetrievalCollaborators : Collaborators :=
  { classifierResult := .ok
      { intent := some "general_qa"
        confidence := some (9/10)
        entities := some []
        suggested_prompt_template := some "general_qa_v1"
        requires_clarification := some false }
    retrievalOutcome := .error "boom"
    generateResponse := fun _ => .ok "answer"
    generateTokens := fun _ => ["Hello"]
    generateStreamError := fun _ => none }

/-- Collaborators for a `casual_chat` query ("hi"): the classifier returns
`casual_chat` with high confidence; a retrieval outcome is present in the
environment but must never be consulted. -/
def casualChatCollaborators : Collaborators :=
  { classifierResult := .ok
      { intent := some "casual_chat"
        confidence := some (98/100)
        entities := some []
        suggested_prompt_template := some "casual_chat_v1"
        requires_clarification := some false }
    retrievalOutcome := .ok [{ page_content := "stray", source := some "s",
                               score := some 1 }]
    generateResponse := fun _ => .ok "Hello there!"
    generateTokens := fun _ => ["Hello", " there!"]
    generateStreamError := fun _ => none }

/-- A document whose content is exactly 100 characters long. -/
def hundredCharDoc : Document :=
  { page_content := String.mk (List.replicate 100 'a')
    source := some "doc_0.py"
    score := some (9/10) }

/-- Collaborators for a successful request that retrieves the 100-character
document. -/
def longDocCollaborators : Collaborators :=
  { classifierResult := .ok
      { intent := some "general_qa"
        confidence := some (9/10)
        entities := some []
        suggested_prompt_template := some "general_qa_v1"
        requires_clarification := some false }
    retrievalOutcome := .ok [hundredCharDoc]
    generateResponse := fun _ => .ok "ans"
    generateTokens := fun _ => ["ans"]
    generateStreamError := fun _ => none }

/-- Pipeline stage names, from `backend/engine/pipeline.py`
(`class PipelineStage`). -/
inductive PipelineStage where
  | query_parse
  | intent_classify
  | retrieve
  | rerank_stage
  | context_build
  | prompt_assemble
  | generate
  | post_process
deriving DecidableEq, Repr

/-- The per-request mutable record, from `pipeline.py`
(`class PipelineContext`).  Every stage-owned field starts out absent. -/
structure PipelineContext where
  query : String
  session_id : String
  user_id : Option String := none
  intent : Option IntentResult := none
  retrieval_results : Option (List Document) := none
  context : Option (List (String × String)) := none
  prompt : Option (List (String × String)) := none
  response : Option String := none
  metadata : List (String × String) := []
deriving DecidableEq, Repr

/-- A registered processing node: `run(context) -> context`.  The Python
sync/coroutine distinction (`asyncio.iscoroutinefunction`) collapses in the
embedding — both are invoked and their result awaited. -/
def Node : Type := PipelineContext → PipelineContext

/-- A middleware object; `hasattr(middleware, 'before_stage')` /
`hasattr(middleware, 'after_stage')` are modelled by the `Option`s. -/
structure Middleware where
  before_stage : Option (PipelineStage → PipelineContext → PipelineContext)
  after_stage : Option (PipelineStage → PipelineContext → PipelineContext)

/-- `RAGPipeline`: the stage-to-node registry and the middleware list, fixed
at construction. -/
structure RAGPipeline where
  nodes : PipelineStage → Option Node
  middlewares : List Middleware

/-- `RAGPipeline._execute_stage`: a stage with no registered node is a
pass-through; otherwise every middleware's `before_stage` runs in
registration order, the node runs, and every middleware's `after_stage`
runs in the same registration order. -/
def executeStage (nodes : PipelineStage → Option Node)
    (middlewares : List Middleware) (stage : PipelineStage)
    (ctx : PipelineContext) : PipelineContext :=
  match nodes stage with
  | none => ctx
  | some node =>
    let ctx1 := middlewares.foldl
      (fun c m =>
        match m.before_stage with
        | some f => f stage c
        | none => c) ctx
    let ctx2 := node ctx1
    middlewares.foldl
      (fun c m =>
        match m.after_stage with
        | some f => f stage c
        | none => c) ctx2

/-- The truthiness test `if ctx.intent and ctx.intent.requires_clarification`
(a present `IntentResult` object is always truthy). -/
def ctxRequiresClarification (ctx : PipelineContext) : Bool :=
  match ctx.intent with
  | some i => i.requires_clarification
  | none => false

/-- The clarification response text set by `RAGPipeline.execute`. -/
def clarificationMessage : String :=
  "I need more information to understand your question..."

/-- The state of `RAGPipeline.execute` after the first two stages
(`query_parse` then `intent_classify`) have run on the fresh context. -/
def stagesThroughIntent (p : RAGPipeline) (query session_id : String)
    (user_id : Option String) : PipelineContext :=
  executeStage p.nodes p.middlewares .intent_classify
    (executeStage p.nodes p.middlewares .query_parse
      { query := query, session_id := session_id, user_id := user_id })

/-- `RAGPipeline.execute`: the eight stages in their fixed order, with the
early return after intent classification when clarification is required. -/
def RAGPipeline.execute (p : RAGPipeline) (query session_id : String)
    (user_id : Option String) : PipelineContext :=
  let ctx2 := stagesThroughIntent p query session_id user_id
  if ctxRequiresClarification ctx2 then
    { ctx2 with response := some clarificationMessage }
  else
    let ctx3 := executeStage p.nodes p.middlewares .retrieve ctx2
    let ctx4 := executeStage p.nodes p.middlewares .rerank_stage ctx3
    let ctx5 := executeStage p.nodes p.middlewares .context_build ctx4
    let ctx6 := executeStage p.nodes p.middlewares .prompt_assemble ctx5
    let ctx7 := executeStage p.nodes p.middlewares .generate ctx6
    executeStage p.nodes p.middlewares .post_process ctx7

/-- `RAGPipeline._extract_citations`: an absent (or empty, which Python's
falsiness also catches) retrieval set yields no citations; otherwise one
citation per retrieved document. -/
def extract_citations (ctx : PipelineContext) : List Citation :=
  match ctx.retrieval_results with
  | none => []
  | some rs => rs.map mkCitation

/-- An intent result that requires clarification, used as concrete test
input. -/
def clarifyingIntent : IntentResult :=
  { intent := .general_qa
    confidence := 1/2
    entities := []
    suggested_prompt_template := "general_qa_v1"
    requires_clarification := true }

/-- A node that classifies every query as requiring clarification, used as
concrete test input. -/
def clarifyingNode : Node :=
  fun c => { c with intent := some clarifyingIntent }

/-- A pipeline whose only registered node is the clarifying intent
classifier, used as concrete test input. -/
def clarifyingPipeline : RAGPipeline :=
  { nodes := fun st =>
      if st = PipelineStage.intent_classify then some clarifyingNode
      else none
    middlewares := [] }

/-- The intent result `classify` produces for the high-confidence
`general_qa` classifier outputs used as concrete test inputs. -/
def generalQaIntentResult : IntentResult :=
  { intent := .general_qa
    confidence := 9/10
    entities := []
    suggested_prompt_template := "general_qa_v1"
    requires_clarification := false }

/-- The response `chat` produces for `longDocCollaborators`. -/
def longDocResponse : ChatResponse :=
  { session_id := "s"
    response := "ans"
    intent := generalQaIntentResult
    citations := [mkCitation hundredCharDoc]
    template_used := "general_qa_v1" }

/-! ## Theorems -/

/-- Claim C1, counterexample: the claim says `classify` forces
`requires_clarification = true` whenever confidence is strictly below 0.7
regardless of what the classifier reports.  On a classifier output with
confidence 0.69 and a reported `requires_clarification = false`, the code
returns `requires_clarification = false`: the service never overrides the
reported flag (the `< 0.7` rule exists only as an instruction inside the
LLM prompt text). -/
theorem classify_does_not_force_clarification_below_070 :
    (classify (.ok lowConfidenceOutput)).confidence < 7/10 ∧
    (classify (.ok lowConfidenceOutput)).requires_clarification = false := by
  constructor
  · show (69/100 : Rat) < 7/10
    norm_num
  · rfl

/-- Claim C1, amended: `classify` returns exactly the classifier-reported
`requires_clarification` flag (`false` when the key is absent), independent of
the confidence value; on backend failure the flag is `false`. -/
theorem classify_requires_clarification_passthrough :
    (∀ result : ClassifierOutput,
      (classify (.ok result)).requires_clarification =
        result.requires_clarification.getD false) ∧
    (∀ e : String, (classify (.error e)).requires_clarification = false) := by
  constructor
  · intro result
    rfl
  · intro e
    rfl

/-- Claim C6: `classify` never propagates a failure: for every backend or parsing
failure (every `Except.error`), it returns the fixed safe default
`IntentResult` — intent `general_qa`, confidence 0.5, empty entities,
template `general_qa_v1`, `requires_clarification = false`. -/
theorem classify_error_returns_safe_default :
    ∀ e : String,
      classify (.error e) =
        { intent := .general_qa
          confidence := 1/2
          entities := []
          suggested_prompt_template := "general_qa_v1"
          requires_clarification := false } := by
  intro e
  rfl

/-- Claim C7: whenever the classifier's suggested template id is missing or not in
the allow-list (which covers the empty string and the literal placeholder
`"template_id"`, neither of which is allowed), the returned template id is
recomputed by the fixed `_match_template` table from the raw intent string,
it always lands in the allow-list, and it is never the raw invalid string.
The conjunction also pins every row of the lookup table, including the
`anything else → default_v1` row, and the spec's concrete example:
`"nonexistent_v1"` with intent `bug_fix` resolves to `"bug_fix_v1"`. -/
theorem classify_recomputes_invalid_template :
    (∀ result : ClassifierOutput,
      (result.suggested_prompt_template = none ∨
        ∃ t, result.suggested_prompt_template = some t ∧
          t ∉ allowed_template_ids) →
      (classify (.ok result)).suggested_prompt_template =
          match_template (result.intent.getD "general_qa") ∧
      (classify (.ok result)).suggested_prompt_template ∈
          allowed_template_ids ∧
      (∀ t, result.suggested_prompt_template = some t →
        (classify (.ok result)).suggested_prompt_template ≠ t)) ∧
    match_template "code_search" = "code_search_v1" ∧
    match_template "code_explain" = "code_explain_v1" ∧
    match_template "code_review" = "code_review_v1" ∧
    match_template "bug_fix" = "bug_fix_v1" ∧
    match_template "refactor" = "refactor_v1" ∧
    match_template "general_qa" = "general_qa_v1" ∧
    match_template "casual_chat" = "casual_chat_v1" ∧
    match_template "clarification" = "default_v1" ∧
    (classify (.ok nonexistentTemplateOutput)).suggested_prompt_template =
      "bug_fix_v1" := by
  refine ⟨?_, rfl, rfl, rfl, rfl, rfl, rfl, rfl, rfl, rfl⟩
  intro result h
  have hmatch : ∀ s : String, match_template s ∈ allowed_template_ids := by
    intro s
    unfold match_template allowed_template_ids
    repeat' split
    all_goals simp
  rcases h with hnone | ⟨t, ht, htmem⟩
  · refine ⟨?_, ?_, ?_⟩
    · simp [classify, hnone]
    · simp [classify, hnone]
      exact hmatch _
    · intro t ht
      rw [hnone] at ht
      exact absurd ht (by simp)
  · have hcond : (t = "" ∨ t = "template_id" ∨ t ∉ allowed_template_ids) :=
      Or.inr (Or.inr htmem)
    refine ⟨?_, ?_, ?_⟩
    · simp [classify, ht, hcond]
    · simp [classify, ht, hcond]
      exact hmatch _
    · intro t' ht'
      rw [ht] at ht'
      injection ht' with ht''
      subst ht''
      simp [classify, ht, hcond]
      intro hcontra
      exact htmem (hcontra ▸ hmatch (result.intent.getD "general_qa"))

/-- Claim C7, witness: the spec's own example, checked concretely — suggested
template `"nonexistent_v1"` is outside the allow-list, and on a `bug_fix`
classification the result carries `"bug_fix_v1"`, which is allowed and
differs from the raw string. -/
theorem classify_recomputes_invalid_template_witness :
    (classify (.ok nonexistentTemplateOutput)).suggested_prompt_template =
        match_template "bug_fix" ∧
    (classify (.ok nonexistentTemplateOutput)).suggested_prompt_template ∈
        allowed_template_ids := by
  have h := (classify_recomputes_invalid_template.1
    nonexistentTemplateOutput
    (Or.inr ⟨"nonexistent_v1", rfl, by decide⟩))
  exact ⟨h.1, h.2.1⟩

/-- Membership in the deduplication loop: a document survives iff its content
is not in the `seen` accumulator and it is the *first* element of the input
carrying its content. -/
theorem mem_rerankAux (d : Document) :
    ∀ (xs : List Document) (seen : List String),
      d ∈ rerankAux seen xs ↔
        d.page_content ∉ seen ∧
          xs.find? (fun x => x.page_content == d.page_content) = some d := by
  intro xs
  induction xs with
  | nil => intro seen; simp [rerankAux]
  | cons x xs ih =>
    intro seen
    by_cases hx : x.page_content ∈ seen
    · rw [rerankAux, if_pos hx]
      rw [ih seen]
      constructor
      · rintro ⟨hd, hfind⟩
        have hne : (x.page_content == d.page_content) = false := by
          simp only [beq_eq_false_iff_ne, ne_eq]
          intro hcc
          exact hd (hcc ▸ hx)
        refine ⟨hd, ?_⟩
        rw [List.find?_cons, hne]
        exact hfind
      · rintro ⟨hd, hfind⟩
        have hne : (x.page_content == d.page_content) = false := by
          simp only [beq_eq_false_iff_ne, ne_eq]
          intro hcc
          exact hd (hcc ▸ hx)
        rw [List.find?_cons, hne] at hfind
        exact ⟨hd, hfind⟩
    · rw [rerankAux, if_neg hx]
      constructor
      · intro hmem
        rcases List.mem_cons.mp hmem with hdx | hmem'
        · subst hdx
          refine ⟨hx, ?_⟩
          rw [List.find?_cons]
          simp
        · rcases (ih (x.page_content :: seen)).mp hmem' with ⟨hd, hfind⟩
          have hdx : d.page_content ≠ x.page_content := by
            intro hcc
            exact hd (by rw [hcc]; exact List.mem_cons_self _ _)
          have hds : d.page_content ∉ seen := fun hs =>
            hd (List.mem_cons_of_mem _ hs)
          refine ⟨hds, ?_⟩
          rw [List.find?_cons]
          have hne : (x.page_content == d.page_content) = false := by
            simp only [beq_eq_false_iff_ne, ne_eq]
            exact fun hcc => hdx hcc.symm
          rw [hne]
          exact hfind
      · rintro ⟨hd, hfind⟩
        rw [List.find?_cons] at hfind
        by_cases hxd : x.page_content == d.page_content
        · rw [hxd] at hfind
          simp at hfind
          exact List.mem_cons.mpr (Or.inl hfind.symm)
        · rw [Bool.not_eq_true] at hxd
          rw [hxd] at hfind
          refine List.mem_cons.mpr (Or.inr ?_)
          refine (ih (x.page_content :: seen)).mpr ⟨?_, hfind⟩
          intro hmem
          rcases List.mem_cons.mp hmem with hcc | hcc
          · rw [beq_eq_false_iff_ne] at hxd
            exact hxd hcc.symm
          · exact hd hcc

/-- Every survivor of the deduplication loop has content outside the `seen`
accumulator. -/
theorem rerankAux_content_not_seen :
    ∀ (xs : List Document) (seen : List String) (d : Document),
      d ∈ rerankAux seen xs → d.page_content ∉ seen := by
  intro xs seen d hmem
  exact ((mem_rerankAux d xs seen).mp hmem).1

/-- The deduplication loop output has pairwise distinct contents. -/
theorem rerankAux_pairwise :
    ∀ (xs : List Document) (seen : List String),
      (rerankAux seen xs).Pairwise
        (fun a b => a.page_content ≠ b.page_content) := by
  intro xs
  induction xs with
  | nil => intro seen; simp [rerankAux]
  | cons x xs ih =>
    intro seen
    by_cases hx : x.page_content ∈ seen
    · rw [rerankAux, if_pos hx]
      exact ih seen
    · rw [rerankAux, if_neg hx]
      refine List.Pairwise.cons ?_ (ih (x.page_content :: seen))
      intro b hb
      have := rerankAux_content_not_seen xs (x.page_content :: seen) b hb
      intro hcc
      exact this (by rw [← hcc]; exact List.mem_cons_self _ _)

/-- The deduplication loop output is a sublist of its input: surviving
documents keep their relative order. -/
theorem rerankAux_sublist :
    ∀ (xs : List Document) (seen : List String),
      List.Sublist (rerankAux seen xs) xs := by
  intro xs
  induction xs with
  | nil => intro seen; simp [rerankAux]
  | cons x xs ih =>
    intro seen
    by_cases hx : x.page_content ∈ seen
    · rw [rerankAux, if_pos hx]
      exact List.Sublist.cons x (ih seen)
    · rw [rerankAux, if_neg hx]
      exact List.Sublist.cons₂ x (ih (x.page_content :: seen))

/-- Claim C4: the merged result of `_aget_relevant_documents` is the per-source
result lists flattened in source-registration order and then deduplicated by
exact content equality: (i) by definition it is `_rerank` of the
registration-order flattening; (ii) a document is in the output iff it is the
first occurrence of its content in that flattening (first occurrence kept,
later duplicates dropped); (iii) no two output documents share a content;
(iv) the output preserves the flattening's order (it is a sublist of it);
(v) the configured weights have no effect on the output. -/
theorem retrieve_merges_in_registration_order :
    ∀ (e : EnsembleRetriever) (q : String),
      e.aget_relevant_documents q =
        rerank ((e.retrievers.map (fun r => okDocs (r q))).flatten) ∧
      (∀ d : Document,
        d ∈ e.aget_relevant_documents q ↔
          ((e.retrievers.map (fun r => okDocs (r q))).flatten).find?
              (fun x => x.page_content == d.page_content) = some d) ∧
      (e.aget_relevant_documents q).Pairwise
        (fun a b => a.page_content ≠ b.page_content) ∧
      List.Sublist (e.aget_relevant_documents q)
        ((e.retrievers.map (fun r => okDocs (r q))).flatten) ∧
      (∀ w : List Rat,
        (EnsembleRetriever.mk e.retrievers w).aget_relevant_documents q =
          e.aget_relevant_documents q) := by
  intro e q
  refine ⟨rfl, ?_, ?_, ?_, ?_⟩
  · intro d
    rw [EnsembleRetriever.aget_relevant_documents, rerank,
      mem_rerankAux d _ []]
    simp
  · exact rerankAux_pairwise _ []
  · exact rerankAux_sublist _ []
  · intro w
    rfl

/-- Flattening the successful contributions ignores failed sources: filtering
the source list down to the successful calls does not change the flattening. -/
theorem flatten_okDocs_filter (q : String) :
    ∀ rs : List Retriever,
      ((rs.filter (fun r => succeeded (r q))).map
          (fun r => okDocs (r q))).flatten =
        (rs.map (fun r => okDocs (r q))).flatten := by
  intro rs
  induction rs with
  | nil => rfl
  | cons r rs ih =>
    by_cases hr : succeeded (r q)
    · rw [List.filter_cons, if_pos (by simpa using hr)]
      simp only [List.map_cons, List.flatten_cons]
      rw [ih]
    · have hempty : okDocs (r q) = [] := by
        revert hr
        unfold succeeded okDocs
        cases r q <;> simp
      rw [List.filter_cons, if_neg (by simpa using hr)]
      simp only [List.map_cons, List.flatten_cons, hempty, List.nil_append]
      exact ih

/-- Claim C5: when fewer than all of the N configured sources fail, the merge does
not fail (it is a total function of the settled results) and returns exactly
the deduplicated union of the *successful* sources' documents: the output
equals the output of an ensemble retaining only the successful sources, so a
failed source contributes zero documents and leaves the other sources'
contribution unchanged, and the output has no duplicate contents. -/
theorem retrieve_tolerates_partial_failure :
    ∀ (rs : List Retriever) (w : List Rat) (q : String),
      (rs.countP (fun r => !succeeded (r q))) < rs.length →
      (EnsembleRetriever.mk rs w).aget_relevant_documents q =
        (EnsembleRetriever.mk
          (rs.filter (fun r => succeeded (r q))) w).aget_relevant_documents
            q ∧
      ((EnsembleRetriever.mk rs w).aget_relevant_documents q).Pairwise
        (fun a b => a.page_content ≠ b.page_content) := by
  intro rs w q _
  constructor
  · show rerank _ = rerank _
    rw [flatten_okDocs_filter q rs]
  · exact rerankAux_pairwise _ []

/-- Claim C5, witness: with one failing source out of two, the hypothesis
(fewer than N sources fail) holds and the merged output equals the output of
the surviving source alone. -/
theorem retrieve_tolerates_partial_failure_witness :
    ([srcFailing, srcAlpha].countP
        (fun r => !succeeded (r "q"))) < 2 ∧
    (EnsembleRetriever.mk [srcFailing, srcAlpha]
        [7/10, 3/10]).aget_relevant_documents "q" =
      (EnsembleRetriever.mk
        ([srcFailing, srcAlpha].filter (fun r => succeeded (r "q")))
        [7/10, 3/10]).aget_relevant_documents "q" := by
  refine ⟨by decide, ?_⟩
  exact (retrieve_tolerates_partial_failure
    [srcFailing, srcAlpha] [7/10, 3/10] "q" (by decide)).1

/-- Scanning for a token before the generating status steps over a
non-generating status event. -/
theorem ntbg_cons_status (s : String) (es : List Event)
    (h : s ≠ "generating") :
    noTokenBeforeGenerating (Event.status s :: es) =
      noTokenBeforeGenerating es := by
  simp [noTokenBeforeGenerating, h]

/-- Scanning for a token before the generating status succeeds at the
generating status. -/
theorem ntbg_cons_generating (es : List Event) :
    noTokenBeforeGenerating (Event.status "generating" :: es) = true := by
  simp [noTokenBeforeGenerating]

/-- Scanning for a token steps over a clarification event. -/
theorem ntbg_cons_clarification (m : String) (sg : List String)
    (es : List Event) :
    noTokenBeforeGenerating (Event.clarification m sg :: es) =
      noTokenBeforeGenerating es := rfl

/-- Scanning for a token steps over an error event. -/
theorem ntbg_cons_error (m : String) (es : List Event) :
    noTokenBeforeGenerating (Event.error m :: es) =
      noTokenBeforeGenerating es := rfl

/-- Scanning for a token steps over a retrieval summary event. -/
theorem ntbg_cons_retrieval (n : Nat) (srcs : List (Option String))
    (es : List Event) :
    noTokenBeforeGenerating (Event.retrieval n srcs :: es) =
      noTokenBeforeGenerating es := rfl

/-- The after-done scan steps over any non-done event. -/
theorem nafd_cons_nondone (e : Event) (es : List Event)
    (h : isDoneEvent e = false) :
    noEventAfterFirstDone (e :: es) = noEventAfterFirstDone es := by
  simp [noEventAfterFirstDone, h]

/-- Token events never contain a done event, so the after-done scan passes
through any mapped token block. -/
theorem nafd_token_block (ts : List String) (rest : List Event) :
    noEventAfterFirstDone (ts.map Event.token ++ rest) =
      noEventAfterFirstDone rest := by
  induction ts with
  | nil => rfl
  | cons t ts ih =>
    simp only [List.map_cons, List.cons_append]
    rw [nafd_cons_nondone (Event.token t) _ rfl]
    exact ih

/-- A stream whose only done event is its last element satisfies the
after-done discipline once the scan reaches it. -/
theorem nafd_done_last (sid : String) (cs : List Citation) :
    noEventAfterFirstDone [Event.done sid cs] = true := rfl

/-- Helper: the only `done` event `chat_stream` can emit is the final one,
carrying the request's session id and the citations of the retrieved
document set. -/
theorem done_mem_chat_stream (q s : String) (o : Collaborators)
    (sid : String) (cs : List Citation)
    (h : Event.done sid cs ∈ chat_stream q s o) :
    sid = s ∧
      cs = (retrievedDocs (classify o.classifierResult)
        o.retrievalOutcome).map mkCitation := by
  rw [chat_stream] at h
  simp only [List.mem_cons, List.mem_append] at h
  rcases h with h | h
  · exact absurd h (by simp)
  rcases h with h | h
  · rcases (em ((classify o.classifierResult).requires_clarification = true))
      with hc | hc
    · simp [hc] at h
    · simp [Bool.not_eq_true] at hc
      simp [hc] at h
  rcases h with h | h
  · exact absurd h (by simp)
  rcases h with h | h
  · rcases (em ((classify o.classifierResult).intent =
      IntentType.casual_chat)) with hc | hc
    · simp [hc] at h
    · cases hro : o.retrievalOutcome with
      | ok ds => simp [hc, hro] at h
      | error e => simp [hc, hro] at h
  rcases h with h | h
  · exact absurd h (by simp)
  rcases h with h | h
  · exact absurd h (by simp)
  rcases h with h | h
  · rcases List.mem_map.mp h with ⟨t, _, ht⟩
    exact absurd ht (by simp)
  · cases hge : o.generateStreamError
      (selectTemplate
        (classify o.classifierResult).suggested_prompt_template) with
    | some e => simp [hge] at h
    | none =>
      simp [hge] at h
      exact ⟨h.1, h.2⟩

/-- Claim C2, counterexample: the claim says the event sequence of a
non-clarification streaming execution terminates after the first `done` or
`error` event.  For a non-clarification query whose retrieval call fails,
`chat_stream` yields an `error` event and then *continues*: the `retrieval`
summary, the generating status, token events and the final `done` all follow
it, so the first-terminal discipline is violated. -/
theorem chat_stream_emits_events_after_error :
    (classify
        failingRetrievalCollaborators.classifierResult).requires_clarification
      = false ∧
    chat_stream "q" "s" failingRetrievalCollaborators =
      [Event.status "intent_classify", Event.status "retrieving",
       Event.error "Retrieval failed: boom", Event.retrieval 0 [],
       Event.status "generating", Event.token "Hello",
       Event.done "s" []] ∧
    noEventAfterFirstTerminal
      (chat_stream "q" "s" failingRetrievalCollaborators) = false := by
  refine ⟨rfl, rfl, rfl⟩

/-- The after-done scan steps over a status event. -/
theorem nafd_cons_status (st : String) (es : List Event) :
    noEventAfterFirstDone (Event.status st :: es) =
      noEventAfterFirstDone es := rfl

/-- The after-done scan steps over an error event. -/
theorem nafd_cons_error (m : String) (es : List Event) :
    noEventAfterFirstDone (Event.error m :: es) =
      noEventAfterFirstDone es := rfl

/-- The after-done scan steps over a retrieval summary event. -/
theorem nafd_cons_retrieval (n : Nat) (srcs : List (Option String))
    (es : List Event) :
    noEventAfterFirstDone (Event.retrieval n srcs :: es) =
      noEventAfterFirstDone es := rfl

/-- A stream ending in a token block (the generation stream raised, so no
done event was emitted) satisfies the after-done discipline. -/
theorem nafd_token_only (ts : List String) :
    noEventAfterFirstDone (ts.map Event.token) = true := by
  have h := nafd_token_block ts []
  simpa using h

/-- Claim C2, amended: for every streaming execution of a non-clarification
query, the emitted sequence is finite (it is a list), starts with a `status`
event, no `token` event appears before a `status` event with stage
`generating`, and nothing follows the first `done` event.  An `error` event,
however, is not terminal: it is emitted mid-stream on retrieval failure and
the stream continues. -/
theorem chat_stream_event_discipline :
    ∀ (q s : String) (o : Collaborators),
      (classify o.classifierResult).requires_clarification = false →
      (chat_stream q s o).head? = some (Event.status "intent_classify") ∧
      noTokenBeforeGenerating (chat_stream q s o) = true ∧
      noEventAfterFirstDone (chat_stream q s o) = true := by
  intro q s o h
  refine ⟨rfl, ?_, ?_⟩
  · rcases em ((classify o.classifierResult).intent =
      IntentType.casual_chat) with hc | hc
    · simp [chat_stream, h, hc, noTokenBeforeGenerating]
    · cases hro : o.retrievalOutcome with
      | ok ds => simp [chat_stream, h, hc, hro, noTokenBeforeGenerating]
      | error e => simp [chat_stream, h, hc, hro, noTokenBeforeGenerating]
  · rcases em ((classify o.classifierResult).intent =
      IntentType.casual_chat) with hc | hc
    · cases hge : o.generateStreamError
        (selectTemplate
          (classify o.classifierResult).suggested_prompt_template) with
      | some e =>
        simp [chat_stream, h, hc, hge, nafd_cons_status, nafd_cons_retrieval,
          nafd_token_block, nafd_token_only, noEventAfterFirstDone, isDoneEvent]
      | none =>
        simp [chat_stream, h, hc, hge, nafd_cons_status, nafd_cons_retrieval,
          nafd_token_block, nafd_token_only, noEventAfterFirstDone, isDoneEvent]
    · cases hro : o.retrievalOutcome with
      | ok ds =>
        cases hge : o.generateStreamError
          (selectTemplate
            (classify o.classifierResult).suggested_prompt_template) with
        | some e =>
          simp [chat_stream, h, hc, hro, hge, nafd_cons_status,
            nafd_cons_retrieval, nafd_token_block, nafd_token_only,
            noEventAfterFirstDone, isDoneEvent]
        | none =>
          simp [chat_stream, h, hc, hro, hge, nafd_cons_status,
            nafd_cons_retrieval, nafd_token_block, nafd_token_only,
            noEventAfterFirstDone, isDoneEvent]
      | error e =>
        cases hge : o.generateStreamError
          (selectTemplate
            (classify o.classifierResult).suggested_prompt_template) with
        | some e2 =>
          simp [chat_stream, h, hc, hro, hge, nafd_cons_status,
            nafd_cons_error, nafd_cons_retrieval, nafd_token_block,
            nafd_token_only, noEventAfterFirstDone, isDoneEvent]
        | none =>
          simp [chat_stream, h, hc, hro, hge, nafd_cons_status,
            nafd_cons_error, nafd_cons_retrieval, nafd_token_block,
            nafd_token_only, noEventAfterFirstDone, isDoneEvent]

/-- Claim C2, witness: the amended discipline checked on the concrete
failing-retrieval stream — it starts with the intent-classification status,
no token precedes the generating status, and nothing follows the done
event. -/
theorem chat_stream_event_discipline_witness :
    (classify
        failingRetrievalCollaborators.classifierResult).requires_clarification
      = false ∧
    noTokenBeforeGenerating
      (chat_stream "q" "s" failingRetrievalCollaborators) = true ∧
    noEventAfterFirstDone
      (chat_stream "q" "s" failingRetrievalCollaborators) = true := by
  refine ⟨rfl, ?_⟩
  have h := chat_stream_event_discipline "q" "s"
    failingRetrievalCollaborators rfl
  exact ⟨h.2.1, h.2.2⟩

/-- Helper: the citations of every successful `chat` response are exactly the
retrieved-document set mapped through `mkCitation`. -/
theorem chat_ok_citations (q s : String) (o : Collaborators)
    (resp : ChatResponse) (h : chat q s o = .ok resp) :
    resp.citations =
      (retrievedDocs (classify o.classifierResult)
        o.retrievalOutcome).map mkCitation := by
  unfold chat at h
  cases hgen : o.generateResponse
    (selectTemplate
      (classify o.classifierResult).suggested_prompt_template) with
  | error e =>
    simp only [hgen] at h
    exact Except.noConfusion h
  | ok text =>
    simp only [hgen] at h
    have h2 := Except.ok.inj h
    rw [← h2]

/-- Claim C8: for every request whose classified intent is `casual_chat`,
retrieval is skipped entirely — the result of both `chat` and `chat_stream`
is independent of the retrieval collaborator's outcome, which is the
extensional statement that the document sources are never consulted — and
the citations are empty: a successful `chat` response carries no citation and
any `done` event of the stream carries an empty citation list. -/
theorem casual_chat_skips_retrieval :
    ∀ (q s : String) (o : Collaborators),
      (classify o.classifierResult).intent = IntentType.casual_chat →
      (∀ resp : ChatResponse, chat q s o = .ok resp →
        resp.citations = []) ∧
      (∀ ro, chat q s { o with retrievalOutcome := ro } = chat q s o) ∧
      (∀ ro, chat_stream q s { o with retrievalOutcome := ro } =
        chat_stream q s o) ∧
      (∀ sid cs, Event.done sid cs ∈ chat_stream q s o → cs = []) := by
  intro q s o hc
  have hdocs : ∀ ro, retrievedDocs (classify o.classifierResult) ro = [] := by
    intro ro
    simp [retrievedDocs, hc]
  refine ⟨?_, ?_, ?_, ?_⟩
  · intro resp hresp
    rw [chat_ok_citations q s o resp hresp, hdocs]
    rfl
  · intro ro
    simp [chat, hdocs]
  · intro ro
    simp [chat_stream, hdocs, hc]
  · intro sid cs hmem
    have h2 := (done_mem_chat_stream q s o sid cs hmem).2
    rw [h2, hdocs]
    rfl

/-- Claim C8, witness: for the concrete `casual_chat` request, `chat` yields
the same result whether the retrieval collaborator fails or returns a
document, and the stream's done event carries no citations. -/
theorem casual_chat_skips_retrieval_witness :
    chat "hi" "s"
        { casualChatCollaborators with retrievalOutcome := .error "down" } =
      chat "hi" "s" casualChatCollaborators ∧
    (∀ sid cs,
      Event.done sid cs ∈ chat_stream "hi" "s" casualChatCollaborators →
        cs = []) := by
  have h := casual_chat_skips_retrieval "hi" "s" casualChatCollaborators rfl
  exact ⟨h.2.1 (.error "down"), h.2.2.2⟩

/-- Helper: the length of a citation's content preview is the truncation
(at most 100 characters) plus the three appended ellipsis dots. -/
theorem mkCitation_content_length (d : Document) :
    (mkCitation d).content.length = min 100 d.page_content.length + 3 := by
  show (pySlice d.page_content 100 ++ "...").length = _
  rw [String.length_append]
  have h1 : (pySlice d.page_content 100).length =
      min 100 d.page_content.length := by
    show (d.page_content.data.take 100).length = min 100 d.page_content.length
    exact List.length_take 100 d.page_content.data
  rw [h1]
  rfl

/-- Claim C9, counterexample: the claim caps the citation preview at 100
characters, but the code computes `page_content[:100] + "..."`.  On a
retrieved document whose content is exactly 100 characters, the completed
request's single citation has a 103-character content field. -/
theorem citation_preview_exceeds_100_chars :
    (chat "q" "s" longDocCollaborators).map (fun r => r.citations) =
      .ok [mkCitation hundredCharDoc] ∧
    (mkCitation hundredCharDoc).content.length = 103 ∧
    100 < (mkCitation hundredCharDoc).content.length := by
  have hlen : hundredCharDoc.page_content.length = 100 := rfl
  refine ⟨rfl, ?_, ?_⟩
  · rw [mkCitation_content_length, hlen]
    decide
  · rw [mkCitation_content_length, hlen]
    decide

/-- Claim C9, amended: every citation of a completed request is derived only
from the final retrieved-document set — the citation list is exactly that
set mapped through `mkCitation`, so there is one citation per retrieved
document, in retrieval order, and an empty retrieval set yields an empty
list; each citation consists of the document's source, the first 100
characters of its content followed by `"..."` (hence at most 103 characters,
not 100), and its relevance score; the streaming `done` event carries the
same citation list. -/
theorem chat_citations_one_per_document :
    ∀ (q s : String) (o : Collaborators) (resp : ChatResponse),
      chat q s o = .ok resp →
      resp.citations =
        (retrievedDocs (classify o.classifierResult)
          o.retrievalOutcome).map mkCitation ∧
      resp.citations.length =
        (retrievedDocs (classify o.classifierResult)
          o.retrievalOutcome).length ∧
      (∀ d : Document,
        mkCitation d =
          { source := d.source
            content := pySlice d.page_content 100 ++ "..."
            relevance := d.score.getD 0 }) ∧
      (∀ c ∈ resp.citations, c.content.length ≤ 103) ∧
      (retrievedDocs (classify o.classifierResult) o.retrievalOutcome = [] →
        resp.citations = []) ∧
      (∀ sid cs, Event.done sid cs ∈ chat_stream q s o →
        cs = (retrievedDocs (classify o.classifierResult)
          o.retrievalOutcome).map mkCitation) := by
  intro q s o resp h
  have hcit := chat_ok_citations q s o resp h
  refine ⟨hcit, ?_, fun d => rfl, ?_, ?_, ?_⟩
  · rw [hcit, List.length_map]
  · intro c hcmem
    rw [hcit] at hcmem
    rcases List.mem_map.mp hcmem with ⟨d, _, hd⟩
    rw [← hd, mkCitation_content_length]
    have := Nat.min_le_left 100 d.page_content.length
    omega
  · intro hempty
    rw [hcit, hempty]
    rfl
  · intro sid cs hmem
    exact (done_mem_chat_stream q s o sid cs hmem).2

/-- Claim C9, witness: on the concrete successful request retrieving the
100-character document, `chat` returns the expected response and its
citation list is the retrieved set mapped through `mkCitation`. -/
theorem chat_citations_one_per_document_witness :
    chat "q" "s" longDocCollaborators = .ok longDocResponse ∧
    longDocResponse.citations =
      (retrievedDocs (classify longDocCollaborators.classifierResult)
        longDocCollaborators.retrievalOutcome).map mkCitation := by
  refine ⟨rfl, ?_⟩
  exact (chat_citations_one_per_document "q" "s" longDocCollaborators
    longDocResponse rfl).1

/-- Claim C10: the intent allow-list has eight template ids but the
generation template mapping of `RAGService` defines only five of them; the
three allow-listed ids `bug_fix_v1`, `code_review_v1` and `refactor_v1` are
absent from the mapping, and any suggested id absent from the mapping makes
both `chat` and `chat_stream` generate with the `default_v1` template: their
behaviour is unchanged when the generation collaborator is forced to its
`default_v1` behaviour. -/
theorem generation_templates_fall_back_to_default :
    prompt_template_keys = ["default_v1", "code_search_v1",
      "code_explain_v1", "general_qa_v1", "casual_chat_v1"] ∧
    allowed_template_ids.length = 8 ∧
    prompt_template_keys.length = 5 ∧
    (∀ k, k ∈ prompt_template_keys → k ∈ allowed_template_ids) ∧
    ("bug_fix_v1" ∈ allowed_template_ids ∧
      "bug_fix_v1" ∉ prompt_template_keys ∧
      selectTemplate "bug_fix_v1" = "default_v1") ∧
    ("code_review_v1" ∈ allowed_template_ids ∧
      "code_review_v1" ∉ prompt_template_keys ∧
      selectTemplate "code_review_v1" = "default_v1") ∧
    ("refactor_v1" ∈ allowed_template_ids ∧
      "refactor_v1" ∉ prompt_template_keys ∧
      selectTemplate "refactor_v1" = "default_v1") ∧
    (∀ tid, tid ∉ prompt_template_keys →
      selectTemplate tid = "default_v1") ∧
    (∀ (q s : String) (o : Collaborators),
      (classify o.classifierResult).suggested_prompt_template ∉
          prompt_template_keys →
      chat q s o =
        chat q s { o with generateResponse :=
          fun _ => o.generateResponse "default_v1" } ∧
      chat_stream q s o =
        chat_stream q s { o with generateTokens := fun _ => o.generateTokens "default_v1", generateStreamError := fun _ => o.generateStreamError "default_v1" }) := by
  refine ⟨rfl, rfl, rfl, ?_, ⟨by decide, by decide, by decide⟩,
    ⟨by decide, by decide, by decide⟩, ⟨by decide, by decide, by decide⟩,
    ?_, ?_⟩
  · intro k hk
    simp only [prompt_template_keys, List.mem_cons, List.not_mem_nil,
      or_false] at hk
    rcases hk with rfl | rfl | rfl | rfl | rfl <;> decide
  · intro tid h
    simp [selectTemplate, h]
  · intro q s o hmem
    have hsel : selectTemplate
        (classify o.classifierResult).suggested_prompt_template =
          "default_v1" := by
      simp [selectTemplate, hmem]
    constructor
    · simp [chat, hsel]
    · simp [chat_stream, hsel]

/-- Claim C10, witness: `bug_fix_v1` is outside the generation template
mapping and the selection falls back to `default_v1` on it. -/
theorem generation_templates_fall_back_to_default_witness :
    "bug_fix_v1" ∉ prompt_template_keys ∧
    selectTemplate "bug_fix_v1" = "default_v1" := by
  refine ⟨by decide, ?_⟩
  exact generation_templates_fall_back_to_default.2.2.2.2.2.2.2.1
    "bug_fix_v1" (by decide)

/-- Helper: `_execute_stage` depends on the node registry only through the
node registered for the executed stage. -/
theorem executeStage_nodes_congr (n1 n2 : PipelineStage → Option Node)
    (mws : List Middleware) (st : PipelineStage) (c : PipelineContext)
    (h : n1 st = n2 st) :
    executeStage n1 mws st c = executeStage n2 mws st c := by
  unfold executeStage
  rw [h]

/-- Claim C3: whenever the intent stage leaves a context whose intent result
requires clarification, `RAGPipeline.execute` short-circuits immediately
after the intent stage: it returns that context with the clarification
response set, and its result does not depend on the nodes registered for the
retrieval, rerank, context-build, prompt-assembly, generation, or
post-process stages (any pipeline agreeing on the first two stages' nodes
and on the middleware list produces the same result). -/
theorem execute_short_circuits_on_clarification :
    ∀ (p : RAGPipeline) (q sid : String) (uid : Option String),
      ctxRequiresClarification (stagesThroughIntent p q sid uid) = true →
      p.execute q sid uid =
        { stagesThroughIntent p q sid uid with
            response := some clarificationMessage } ∧
      (∀ p' : RAGPipeline,
        p'.nodes PipelineStage.query_parse =
          p.nodes PipelineStage.query_parse →
        p'.nodes PipelineStage.intent_classify =
          p.nodes PipelineStage.intent_classify →
        p'.middlewares = p.middlewares →
        p'.execute q sid uid = p.execute q sid uid) := by
  intro p q sid uid h
  constructor
  · simp [RAGPipeline.execute, h]
  · intro p' h1 h2 h3
    have hsi : stagesThroughIntent p' q sid uid =
        stagesThroughIntent p q sid uid := by
      unfold stagesThroughIntent
      rw [h3]
      rw [executeStage_nodes_congr p'.nodes p.nodes p.middlewares
        PipelineStage.query_parse
        { query := q, session_id := sid, user_id := uid } h1]
      rw [executeStage_nodes_congr p'.nodes p.nodes p.middlewares
        PipelineStage.intent_classify _ h2]
    simp [RAGPipeline.execute, hsi, h]

/-- Claim C3, witness: on the concrete pipeline whose intent stage always
requires clarification, `execute` returns the post-intent context with the
clarification response. -/
theorem execute_short_circuits_witness :
    clarifyingPipeline.execute "q" "s" none =
      { stagesThroughIntent clarifyingPipeline "q" "s" none with
          response := some clarificationMessage } :=
  (execute_short_circuits_on_clarification clarifyingPipeline "q" "s" none
    rfl).1

end AutoAgentX